import Mathlib

/-!
# CEREVAK-TTS: verification of the speech-synthesis core

A shallow embedding, in Lean 4, of the decision logic of the CEREVAK-TTS
repository: the content-addressed cache key derivation of the Flask endpoint
(`app.py`) and the Streamlit app (`app/app.py`), the gTTS/OpenAI routing of
`services/speech_service.py`, the Azure voice catalog resolution of
`services/azure_tts_service.py`, the waveform pitch shifter of
`services/pitch_service.py`, and the Piper and Coqui providers of
`services/tts_providers.py`.

External collaborators (network calls, the filesystem, subprocesses) are
modelled by explicit environment records supplying their outcomes; each
embedded operation is a pure function of its arguments and such a record.
Python exceptions are modelled with `Except`; `hashlib.md5` is embedded in
full so digests evaluate on concrete inputs.
-/

namespace Cerevak

/-! ### MD5 (shallow embedding of `hashlib.md5`)

The cache keys in `app.py` and `app/app.py` are
`hashlib.md5(s.encode()).hexdigest()[:8]`. We embed MD5 over lists of
bytes (as `Nat` below 256), with UTF-8 encoding of the input string. -/

/-- Reduce modulo 2^32 (all MD5 word arithmetic is modulo 2^32). -/
def w32 (n : Nat) : Nat := n % 4294967296

/-- 32-bit left rotation. -/
def rotl32 (x s : Nat) : Nat :=
  w32 (x * 2 ^ s + x / 2 ^ (32 - s))

/-- The 64 MD5 sine-derived round constants. -/
def md5K : List Nat := [
  0xd76aa478, 0xe8c7b756, 0x242070db, 0xc1bdceee,
  0xf57c0faf, 0x4787c62a, 0xa8304613, 0xfd469501,
  0x698098d8, 0x8b44f7af, 0xffff5bb1, 0x895cd7be,
  0x6b901122, 0xfd987193, 0xa679438e, 0x49b40821,
  0xf61e2562, 0xc040b340, 0x265e5a51, 0xe9b6c7aa,
  0xd62f105d, 0x02441453, 0xd8a1e681, 0xe7d3fbc8,
  0x21e1cde6, 0xc33707d6, 0xf4d50d87, 0x455a14ed,
  0xa9e3e905, 0xfcefa3f8, 0x676f02d9, 0x8d2a4c8a,
  0xfffa3942, 0x8771f681, 0x6d9d6122, 0xfde5380c,
  0xa4beea44, 0x4bdecfa9, 0xf6bb4b60, 0xbebfbc70,
  0x289b7ec6, 0xeaa127fa, 0xd4ef3085, 0x04881d05,
  0xd9d4d039, 0xe6db99e5, 0x1fa27cf8, 0xc4ac5665,
  0xf4292244, 0x432aff97, 0xab9423a7, 0xfc93a039,
  0x655b59c3, 0x8f0ccc92, 0xffeff47d, 0x85845dd1,
  0x6fa87e4f, 0xfe2ce6e0, 0xa3014314, 0x4e0811a1,
  0xf7537e82, 0xbd3af235, 0x2ad7d2bb, 0xeb86d391]

/-- The 64 per-round left-rotation amounts. -/
def md5S : List Nat := [
  7, 12, 17, 22, 7, 12, 17, 22, 7, 12, 17, 22, 7, 12, 17, 22,
  5,  9, 14, 20, 5,  9, 14, 20, 5,  9, 14, 20, 5,  9, 14, 20,
  4, 11, 16, 23, 4, 11, 16, 23, 4, 11, 16, 23, 4, 11, 16, 23,
  6, 10, 15, 21, 6, 10, 15, 21, 6, 10, 15, 21, 6, 10, 15, 21]

/-- Bitwise complement on a 32-bit word. -/
def not32 (x : Nat) : Nat := 4294967295 - w32 x

/-- Round function and message index for MD5 round `i`. -/
def md5F (i b c d : Nat) : Nat :=
  if i < 16 then Nat.lor (Nat.land b c) (Nat.land (not32 b) d)
  else if i < 32 then Nat.lor (Nat.land d b) (Nat.land (not32 d) c)
  else if i < 48 then Nat.xor b (Nat.xor c d)
  else Nat.xor c (Nat.lor b (not32 d))

/-- Message-word index used in MD5 round `i`. -/
def md5G (i : Nat) : Nat :=
  if i < 16 then i
  else if i < 32 then (5 * i + 1) % 16
  else if i < 48 then (3 * i + 5) % 16
  else (7 * i) % 16

/-- One MD5 round: transforms the running `(a, b, c, d)` state. -/
def md5Step (m : List Nat) (st : Nat × Nat × Nat × Nat) (i : Nat) :
    Nat × Nat × Nat × Nat :=
  let (a, b, c, d) := st
  let f := w32 (md5F i b c d + a + md5K.getD i 0 + m.getD (md5G i) 0)
  (d, w32 (b + rotl32 f (md5S.getD i 0)), b, c)

/-- Little-endian bytes of `n`, `k` bytes long. -/
def leBytes : Nat → Nat → List Nat
  | 0, _ => []
  | k + 1, n => n % 256 :: leBytes k (n / 256)

/-- Interpret a (little-endian) byte list as a natural number. -/
def leVal : List Nat → Nat
  | [] => 0
  | b :: bs => b + 256 * leVal bs

/-- Split a byte list into the sixteen little-endian 32-bit words of a block. -/
def blockWords : Nat → List Nat → List Nat
  | 0, _ => []
  | k + 1, bs => leVal (bs.take 4) :: blockWords k (bs.drop 4)

/-- Process one 64-byte block. -/
def md5Block (st : Nat × Nat × Nat × Nat) (bytes : List Nat) :
    Nat × Nat × Nat × Nat :=
  let m := blockWords 16 bytes
  let (a, b, c, d) := (List.range 64).foldl (md5Step m) st
  let (a0, b0, c0, d0) := st
  (w32 (a0 + a), w32 (b0 + b), w32 (c0 + c), w32 (d0 + d))

/-- MD5 padding: `0x80`, zeros to 56 mod 64, then the 64-bit LE bit length. -/
def md5Pad (msg : List Nat) : List Nat :=
  let zeros := (120 - (msg.length + 1) % 64) % 64
  msg ++ 0x80 :: List.replicate zeros 0 ++
    leBytes 8 ((msg.length * 8) % 2 ^ 64)

/-- Process the padded message, 64 bytes at a time (structural recursion on a
fuel bound, so the kernel can evaluate it; any fuel of at least one unit per
remaining byte yields the full run). -/
def md5Chunks : Nat → Nat × Nat × Nat × Nat → List Nat → Nat × Nat × Nat × Nat
  | 0, st, _ => st
  | _, st, [] => st
  | fuel + 1, st, bytes => md5Chunks fuel (md5Block st (bytes.take 64)) (bytes.drop 64)

/-- The 16 MD5 digest bytes of a byte-list message. -/
def md5Bytes (msg : List Nat) : List Nat :=
  let padded := md5Pad msg
  let (a, b, c, d) :=
    md5Chunks padded.length (0x67452301, 0xefcdab89, 0x98badcfe, 0x10325476) padded
  leBytes 4 a ++ leBytes 4 b ++ leBytes 4 c ++ leBytes 4 d

/-- Lowercase hex digit. -/
def hexDigit (n : Nat) : Char :=
  if n < 10 then Char.ofNat (48 + n) else Char.ofNat (87 + n)

/-- Two-character lowercase hex rendering of a byte. -/
def byteHex (b : Nat) : List Char := [hexDigit (b / 16), hexDigit (b % 16)]

/-- UTF-8 encoding of one character (as `str.encode()` does per code point). -/
def utf8Char (c : Char) : List Nat :=
  let n := c.toNat
  if n < 0x80 then [n]
  else if n < 0x800 then [0xC0 + n / 64, 0x80 + n % 64]
  else if n < 0x10000 then
    [0xE0 + n / 4096, 0x80 + n / 64 % 64, 0x80 + n % 64]
  else
    [0xF0 + n / 262144, 0x80 + n / 4096 % 64, 0x80 + n / 64 % 64, 0x80 + n % 64]

/-- UTF-8 bytes of a string (`s.encode()` in Python). -/
def utf8 (s : String) : List Nat := (s.data.map utf8Char).flatten

/-- `hashlib.md5(s.encode()).hexdigest()`. -/
def md5Hex (s : String) : String := ⟨((md5Bytes (utf8 s)).map byteHex).flatten⟩

/-- `hashlib.md5(s.encode()).hexdigest()[:8]` — the repo's cache key digest. -/
def md5Hex8 (s : String) : String := ⟨(md5Hex s).data.take 8⟩


/-! ### Python string primitives

Python string methods used by the repository, modelled character-wise over
`String.data` (all repository uses are ASCII) so the kernel can evaluate
them. -/

/-- `s.lower()` (ASCII case folding, as used on gender/engine/language
strings). -/
def pyLower (s : String) : String := ⟨s.data.map Char.toLower⟩

/-- `s.strip()`: remove leading and trailing whitespace. -/
def pyStrip (s : String) : String :=
  ⟨((s.data.dropWhile Char.isWhitespace).reverse.dropWhile
      Char.isWhitespace).reverse⟩

/-- `small in big` on Python strings: contiguous substring containment —
`small` is a prefix of `big` or occurs in its tail. -/
def strContains : List Char → List Char → Bool
  | [], small => small.isPrefixOf []
  | b :: rest, small => small.isPrefixOf (b :: rest) || strContains rest small

/-- `s.endswith(suf)`. -/
def pyEndsWith (s suf : String) : Bool := suf.data.isSuffixOf s.data

/-- `s.split("-")[0]`: the characters before the first dash. -/
def headSplitDash (s : String) : String := ⟨s.data.takeWhile (· != '-')⟩

/-! ### Cache key derivation (`app.py`, `translate_and_speak`)

The Flask endpoint derives an 8-hex-character deduplication digest in two
ways.  On the Azure branch (`tts_engine == 'azure'`, `app.py:161-191`):

    pitch_change = max(-3, min(3, pitch_change))
    rate_change  = max(-50, min(50, rate_change))
    pitch_ssml = "default" if pitch_change == 0 else f"{pitch_change:+d}st"
    rate_ssml  = "default" if rate_change == 0 else f"{rate_change:+d}%"
    content_hash = hashlib.md5(
        f"{translated_text}_{target_lang}_{pitch_ssml}_{rate_ssml}".encode()
    ).hexdigest()[:8]

On the legacy branch (`app.py:230-236`):

    selected_voice = speech_service.get_voice_by_gender_and_age(voice_gender, age_tone)
    settings_hash = f"{voice_gender}_{age_tone}_{tts_engine}_{selected_voice}"
    content_hash = hashlib.md5(
        f"{translated_text}_{target_lang}_{settings_hash}".encode()
    ).hexdigest()[:8]
-/

/-- Python's `f"{n:+d}"`: always-signed decimal rendering. -/
def signedDec (n : Int) : String :=
  if n > 0 then "+" ++ toString n else toString n

/-- The SSML pitch string of the Azure branch: clamp to `[-3, 3]`,
`"default"` when zero, else `f"{pitch:+d}st"`. -/
def pitchSsml (pitch_change : Int) : String :=
  let p := max (-3) (min 3 pitch_change)
  if p = 0 then "default" else signedDec p ++ "st"

/-- The SSML rate string of the Azure branch: clamp to `[-50, 50]`,
`"default"` when zero, else `f"{rate:+d}%"`. -/
def rateSsml (rate_change : Int) : String :=
  let r := max (-50) (min 50 rate_change)
  if r = 0 then "default" else signedDec r ++ "%"

/-- `SpeechService.get_voice_by_gender_and_age`'s `voice_map`
(`speech_service.py:288-299`). -/
def voice_map : List (String × List (String × String)) :=
  [("Female", [("Child", "nova"), ("Adult", "shimmer"), ("Senior", "shimmer")]),
   ("Male",   [("Child", "echo"), ("Adult", "onyx"),    ("Senior", "onyx")])]

/-- `SpeechService.get_voice_by_gender_and_age` (`speech_service.py:276-311`):
exact map hit, else gender-specific default, else `'alloy'`. -/
def get_voice_by_gender_and_age (gender age_tone : String) : String :=
  match List.lookup gender voice_map with
  | some inner =>
    match List.lookup age_tone inner with
    | some v => v
    | none =>
      if gender = "Female" then "nova"
      else if gender = "Male" then "onyx" else "alloy"
  | none =>
    if gender = "Female" then "nova"
    else if gender = "Male" then "onyx" else "alloy"

/-- `settings_hash` of the legacy branch (`app.py:235`). -/
def settingsHash (voice_gender age_tone tts_engine selected_voice : String) :
    String :=
  voice_gender ++ "_" ++ age_tone ++ "_" ++ tts_engine ++ "_" ++ selected_voice

/-- The string hashed on the legacy branch (`app.py:236`). -/
def legacyKeyInput
    (translated_text target_lang voice_gender age_tone tts_engine
      selected_voice : String) : String :=
  translated_text ++ "_" ++ target_lang ++ "_" ++
    settingsHash voice_gender age_tone tts_engine selected_voice

/-- The string hashed on the Azure branch (`app.py:190`). -/
def azureKeyInput (translated_text target_lang : String) (pitch rate : Int) :
    String :=
  translated_text ++ "_" ++ target_lang ++ "_" ++ pitchSsml pitch ++ "_" ++
    rateSsml rate

/-- The deduplication cache key computed by `translate_and_speak` for a
request, per branch on the requested engine (`app.py:154`, `app.py:190`,
`app.py:236`). -/
def cacheKey (translated_text target_lang voice_gender age_tone
    tts_engine : String) (pitch rate : Int) : String :=
  if tts_engine = "azure" then
    md5Hex8 (azureKeyInput translated_text target_lang pitch rate)
  else
    md5Hex8 (legacyKeyInput translated_text target_lang voice_gender age_tone
      tts_engine (get_voice_by_gender_and_age voice_gender age_tone))


/-! ### Azure voice catalog (`services/azure_tts_service.py`)

`AZURE_VOICES` maps a UI language label to a gender → voice-name dict (whose
insertion order is female before male); `get_voice_for_gender` resolves a
requested gender against it, raising `KeyError` when nothing is configured.
Python dicts are modelled as association lists in insertion order; raising is
modelled with `Except.error`. -/

/-- `AZURE_VOICES` (`azure_tts_service.py:28-81`). -/
def AZURE_VOICES : List (String × List (String × String)) :=
  [("Assamese",        [("female", "as-IN-GitanjaliNeural"), ("male", "as-IN-ManishNeural")]),
   ("Bengali",         [("female", "bn-IN-TanishaaNeural"),  ("male", "bn-IN-BashkarNeural")]),
   ("English (India)", [("female", "en-IN-NeerjaNeural"),    ("male", "en-IN-PrabhatNeural")]),
   ("Gujarati",        [("female", "gu-IN-DhwaniNeural"),    ("male", "gu-IN-NiranjanNeural")]),
   ("Hindi",           [("female", "hi-IN-SwaraNeural"),     ("male", "hi-IN-MadhurNeural")]),
   ("Kannada",         [("female", "kn-IN-SapnaNeural"),     ("male", "kn-IN-GaganNeural")]),
   ("Malayalam",       [("female", "ml-IN-SobhanaNeural"),   ("male", "ml-IN-MidhunNeural")]),
   ("Marathi",         [("female", "mr-IN-AarohiNeural"),    ("male", "mr-IN-ManoharNeural")]),
   ("Odia",            [("female", "or-IN-KalpanaNeural"),   ("male", "or-IN-SubhenduNeural")]),
   ("Punjabi",         [("female", "pa-IN-GurpreetNeural"),  ("male", "pa-IN-ManinderNeural")]),
   ("Tamil",           [("female", "ta-IN-PallaviNeural"),   ("male", "ta-IN-ValluvarNeural")]),
   ("Telugu",          [("female", "te-IN-ShrutiNeural"),    ("male", "te-IN-MohanNeural")]),
   ("Urdu",            [("female", "ur-IN-UditaNeural"),     ("male", "ur-IN-AsadNeural")])]

/-- `key in d and d[key]` on a gender dict: key present with a truthy
(non-empty) value. -/
def truthyLookup (voices : List (String × String)) (key : String) :
    Option String :=
  match List.lookup key voices with
  | some v => if v = "" then none else some v
  | none => none

/-- The body of `get_voice_for_gender` run against a given gender dict
(`azure_tts_service.py:208-233`): exact lowercased-gender hit, else
`'female'`, else `'male'`, else the first truthy value, else `KeyError`. -/
def get_voice_for_gender_in (voices : List (String × String))
    (language gender : String) : Except String String :=
  if voices = [] then
    Except.error ("No Azure voices configured for '" ++ language ++ "'.")
  else
    match truthyLookup voices (pyLower gender) with
    | some v => Except.ok v
    | none =>
      match truthyLookup voices "female" with
      | some v => Except.ok v
      | none =>
        match truthyLookup voices "male" with
        | some v => Except.ok v
        | none =>
          match voices.find? (fun p => p.2 != "") with
          | some p => Except.ok p.2
          | none =>
            Except.error
              ("No valid Azure voices configured for '" ++ language ++ "'.")

/-- `get_voice_for_gender(language, gender)`: resolve against
`AZURE_VOICES.get(language, {})` (`azure_tts_service.py:208-233`). -/
def get_voice_for_gender (language gender : String) : Except String String :=
  get_voice_for_gender_in ((List.lookup language AZURE_VOICES).getD [])
    language gender

/-- Modelled from the spec wording of the resolution order (spec section 4.1):
"exact (language, gender) match → Female for that language → Male for that
language → any configured voice for that language → NotConfigured", with
`NotConfigured` as `none`.  Stated over the same gender dict the code
resolves against; used to compare the code's resolution with the spec's. -/
def resolveSpecOrder (voices : List (String × String)) (gender : String) :
    Option String :=
  match List.lookup (pyLower gender) voices with
  | some v => some v
  | none =>
    match List.lookup "female" voices with
    | some v => some v
    | none =>
      match List.lookup "male" voices with
      | some v => some v
      | none => voices.head?.map (·.2)

/-! ### Speech service routing (`services/speech_service.py`)

`SpeechService.text_to_speech` prefers OpenAI TTS and falls back to gTTS,
except for the gTTS denylist `{'as', 'or', 'pa'}`, which must use OpenAI or
fail.  The network, the OpenAI client and the filesystem are modelled by a
`TTSEnv` record; the returned dict is `TTSResult`; `TTSRun` additionally
records which engines were invoked. -/

/-- `GTTS_UNSUPPORTED_LANGUAGES` (`speech_service.py:20`). -/
def GTTS_UNSUPPORTED_LANGUAGES : List String := ["as", "or", "pa"]

/-- The `lang_names` dict used in error messages
(`speech_service.py:150-154`, `178-182`). -/
def gttsLangNames : List (String × String) :=
  [("as", "Assamese"), ("or", "Odia"), ("pa", "Punjabi")]

/-- Python's `lang_names.get(lang_code.lower(), lang_code.upper())`. -/
def gttsLangName (lang_code : String) : String :=
  match List.lookup (pyLower lang_code) gttsLangNames with
  | some n => n
  | none => ⟨lang_code.data.map Char.toUpper⟩

/-- OpenAI's valid voice list (`speech_service.py:116`). -/
def validVoices : List String :=
  ["alloy", "echo", "fable", "onyx", "nova", "shimmer"]

/-- Environment for one `text_to_speech` call: whether the OpenAI client was
initialised (`use_openai and openai_client`), the outcome of the OpenAI API
call, whether the written file exists afterwards, and the same for gTTS. -/
structure TTSEnv where
  openaiReady : Bool
  openaiCall : Except String Unit
  openaiFileExists : Bool
  gttsCall : Except String Unit
  gttsFileExists : Bool

/-- The dict returned by `text_to_speech` (`speech_service.py:77-82`). -/
structure TTSResult where
  file_path : Option String
  filename : String
  success : Bool
  message : String
  tts_engine : Option String
  voice_used : Option String
deriving DecidableEq, Repr

/-- A `text_to_speech` run: the returned dict plus which backends were
actually invoked. -/
structure TTSRun where
  result : TTSResult
  calledOpenai : Bool
  calledGtts : Bool
deriving DecidableEq, Repr

/-- The gTTS fallback section of `text_to_speech`
(`speech_service.py:174-238`): unsupported languages error out before gTTS is
constructed; otherwise the gTTS call result and file-existence check decide
the outcome. -/
def gttsSection (env : TTSEnv) (lang_code filename file_path : String)
    (isUnsupported : Bool) (calledOpenai : Bool) : TTSRun :=
  if isUnsupported then
    { result :=
        { file_path := none, filename := filename, success := false,
          message := "Language \"" ++ gttsLangName lang_code ++ "\" (" ++
            lang_code ++ ") is not supported by gTTS. Please configure " ++
            "OpenAI TTS API key in your .env file to generate audio for " ++
            "this language. OpenAI TTS supports Assamese, Odia, and Punjabi.",
          tts_engine := none, voice_used := none },
      calledOpenai := calledOpenai, calledGtts := false }
  else
    match env.gttsCall with
    | Except.ok _ =>
      if env.gttsFileExists then
        { result :=
            { file_path := some file_path, filename := filename,
              success := true,
              message := "Audio file generated successfully using gTTS: " ++
                file_path,
              tts_engine := some "gtts", voice_used := none },
          calledOpenai := calledOpenai, calledGtts := true }
      else
        { result :=
            { file_path := none, filename := filename, success := false,
              message := "Error: File was not created",
              tts_engine := none, voice_used := none },
          calledOpenai := calledOpenai, calledGtts := true }
    | Except.error e =>
      if strContains (pyLower e).data "not supported".data ||
          strContains (pyLower e).data "language".data then
        { result :=
            { file_path := none, filename := filename, success := false,
              message := "Language \"" ++ lang_code ++ "\" is not supported " ++
                "by gTTS. Please configure OpenAI TTS API key for better " ++
                "language support. Error: " ++ e,
              tts_engine := none, voice_used := none },
          calledOpenai := calledOpenai, calledGtts := true }
      else
        { result :=
            { file_path := none, filename := filename, success := false,
              message := "Error generating speech with gTTS: " ++ e,
              tts_engine := none, voice_used := none },
          calledOpenai := calledOpenai, calledGtts := true }

/-- `SpeechService.text_to_speech` (`speech_service.py:64-250`), for a
service with output directory `output_dir`. -/
def text_to_speech (env : TTSEnv) (output_dir text lang_code filename
    voice : String) (use_openai_preference : Bool) : TTSRun :=
  if pyStrip text = "" then
    { result :=
        { file_path := none, filename := filename, success := false,
          message := "Error: Empty text provided",
          tts_engine := none, voice_used := none },
      calledOpenai := false, calledGtts := false }
  else
    let file_path := output_dir ++ "/" ++ filename
    let isUnsupported := GTTS_UNSUPPORTED_LANGUAGES.contains (pyLower lang_code)
    let pref := if isUnsupported then true else use_openai_preference
    if pref && env.openaiReady then
      let voice' := if validVoices.contains voice then voice else "nova"
      match env.openaiCall with
      | Except.ok _ =>
        if env.openaiFileExists then
          { result :=
              { file_path := some file_path, filename := filename,
                success := true,
                message := "Audio file generated successfully using OpenAI " ++
                  "TTS with voice \"" ++ voice' ++ "\": " ++ file_path,
                tts_engine := some "openai", voice_used := some voice' },
            calledOpenai := true, calledGtts := false }
        else
          gttsSection env lang_code filename file_path isUnsupported true
      | Except.error e =>
        if isUnsupported then
          { result :=
              { file_path := none, filename := filename, success := false,
                message := "Language \"" ++ gttsLangName lang_code ++ "\" (" ++
                  lang_code ++ ") requires OpenAI TTS, but OpenAI TTS " ++
                  "failed: " ++ e ++ ". Please check your OpenAI API key " ++
                  "configuration.",
                tts_engine := none, voice_used := none },
            calledOpenai := true, calledGtts := false }
        else
          gttsSection env lang_code filename file_path isUnsupported true
    else
      gttsSection env lang_code filename file_path isUnsupported false

/-! ### Filesystem path helpers (`os.path`, POSIX flavour)

`pitch_service.py` derives its output path with `os.path.dirname`,
`os.path.basename`, `os.path.splitext` and `os.path.join`; these are embedded
over `String.data` with `'/'` as separator. -/

/-- The characters after the last `'/'` (`os.path.basename`). -/
def pathBasename (p : String) : String :=
  ⟨(p.data.reverse.takeWhile (· != '/')).reverse⟩

/-- The characters up to and including the last `'/'` — the raw `head` of
`os.path.split` before its trailing-slash normalisation. -/
def pathRawHead (p : String) : List Char :=
  (p.data.reverse.dropWhile (· != '/')).reverse

/-- `os.path.dirname`: the raw head, with trailing slashes stripped unless it
is all slashes. -/
def pathDirname (p : String) : String :=
  let head := pathRawHead p
  if head.all (· = '/') then ⟨head⟩
  else ⟨(head.reverse.dropWhile (· = '/')).reverse⟩

/-- `os.path.join(a, b)` (POSIX): `b` absolute wins; empty or
slash-terminated `a` concatenates; otherwise a separator is inserted. -/
def pathJoin (a b : String) : String :=
  if b.data.head? = some '/' then b
  else if a = "" || a.data.getLast? = some '/' then a ++ b
  else a ++ "/" ++ b

/-- `os.path.splitext` on a basename (no separators): split at the last dot
provided some earlier character of the name is not a dot. -/
def pathSplitext (s : String) : String × String :=
  let r := s.data.reverse
  let extR := r.takeWhile (· != '.')
  match r.dropWhile (· != '.') with
  | [] => (s, "")
  | _ :: preR =>
    if preR.any (· != '.') then (⟨preR.reverse⟩, ⟨'.' :: extR.reverse⟩)
    else (s, "")

/-! ### Pitch shifter (`services/pitch_service.py`)

`apply_pitch` checks for ffmpeg, type-checks the semitone delta, returns the
input unchanged for delta zero, requires the source file to exist otherwise,
and shells out to ffmpeg to write a `_pitch_{delta}` sibling file.  Python
exception classes are modelled by `PyErr`; the dynamically-typed
`pitch_change` argument by `PyValue`; a successful run returns the resulting
path together with the list of files written. -/

/-- The Python exception classes raised by the embedded services. -/
inductive PyErr where
  | runtimeError (msg : String)
  | valueError (msg : String)
  | fileNotFoundError (msg : String)
deriving DecidableEq, Repr

/-- A dynamically-typed Python argument: an `int`, or a value of any other
type (carrying only its textual rendering). -/
inductive PyValue where
  | int (i : Int)
  | nonInt (repr : String)
deriving DecidableEq, Repr

/-- Environment for one `apply_pitch` call: the resolved ffmpeg binary (from
`FFMPEG_BINARY` or `which`), and the filesystem's existence oracle. -/
structure PitchEnv where
  ffmpegPath : Option String
  pathExists : String → Bool

/-- The `output_name` computed by `apply_pitch` (`pitch_service.py:63-66`):
`f"{base_name}_pitch_{pitch_change}{extension}"`, with the extension
defaulting to `.mp3` when the input has none. -/
def pitchOutputName (audio_file_path : String) (pitch_change : Int) : String :=
  (pathSplitext (pathBasename audio_file_path)).1 ++ "_pitch_" ++
    toString pitch_change ++
    (if (pathSplitext (pathBasename audio_file_path)).2 = "" then ".mp3"
     else (pathSplitext (pathBasename audio_file_path)).2)

/-- The `output_path` computed by `apply_pitch` (`pitch_service.py:67`). -/
def pitchOutputPath (audio_file_path : String) (pitch_change : Int) : String :=
  pathJoin (pathDirname audio_file_path)
    (pitchOutputName audio_file_path pitch_change)

/-- `apply_pitch(audio_file_path, pitch_change)` (`pitch_service.py:36-82`).
Returns the resulting audio path and the list of paths written by ffmpeg. -/
def apply_pitch (env : PitchEnv) (audio_file_path : String)
    (pitch_change : PyValue) : Except PyErr (String × List String) :=
  match env.ffmpegPath with
  | none =>
    Except.error (PyErr.runtimeError
      ("FFmpeg binary not found. Set the FFMPEG_BINARY environment variable" ++
        " to the full path of ffmpeg.exe."))
  | some _ =>
    match pitch_change with
    | PyValue.nonInt _ =>
      Except.error (PyErr.valueError
        "pitch_change must be an integer value representing semitones.")
    | PyValue.int p =>
      if p = 0 then Except.ok (audio_file_path, [])
      else if env.pathExists audio_file_path = false then
        Except.error (PyErr.fileNotFoundError
          ("Audio file not found: " ++ audio_file_path))
      else
        Except.ok (pitchOutputPath audio_file_path p,
          [pitchOutputPath audio_file_path p])

/-! ### Piper provider (`services/tts_providers.py`, class `PiperTTS`)

`PiperTTS` keeps a default model path, a binary name and a lowercase-keyed
per-language model table; `synthesize` requires the binary on `PATH`,
resolves the model by full lowercased locale, then base language, then the
default, requires the model file to exist, and runs the binary. -/

/-- The data produced by a successful provider `synthesize` call (the dict of
`tts_providers.py`; `audio_bytes` are the bytes the provider read back). -/
structure SynthOut where
  audio_bytes : List Nat
  normalized_text : String
  format : String
deriving DecidableEq, Repr

/-- The `PiperTTS` provider state after `__init__`
(`tts_providers.py:96-116`): `models_by_language` is stored with lowercased
keys. -/
structure PiperTTS where
  model_path : String
  binary : String
  models_by_language : List (String × String)

/-- `PiperTTS.__init__`'s key normalisation: lowercase every key of the
model table (`tts_providers.py:105-107`). -/
def piperInitModels (models_by_language : List (String × String)) :
    List (String × String) :=
  models_by_language.map (fun p => (pyLower p.1, p.2))

/-- Environment for one `PiperTTS.synthesize` call: whether
`shutil.which(binary)` finds the executable, the filesystem existence
oracle, and the subprocess outcome with the bytes written. -/
structure PiperEnv where
  binaryOnPath : Bool
  pathExists : String → Bool
  runPiper : Except String (List Nat)

/-- The model resolution of `PiperTTS.synthesize`
(`tts_providers.py:131-141`): the loop takes the first truthy candidate
(full lowercased locale, then base language) found in the table; the final
`if not model_path:` then replaces a falsy result — the loop never having
matched, or a matched empty-string value — by the default model path.  The
falsy states `None` and `""` are both modelled by the `""` sentinel, which
`not` treats alike. -/
def piperResolveModel (prov : PiperTTS) (lang : String) : String :=
  let full := pyLower lang
  let base := headSplitDash full
  let model_path :=
    match (if full ≠ "" then List.lookup full prov.models_by_language
           else none) with
    | some m => m
    | none =>
      match (if base ≠ "" then List.lookup base prov.models_by_language
             else none) with
      | some m => m
      | none => ""
  if model_path = "" then prov.model_path else model_path

/-- `PiperTTS.synthesize(text, lang, ...)` (`tts_providers.py:118-179`). -/
def piperSynthesize (prov : PiperTTS) (env : PiperEnv) (text lang : String) :
    Except PyErr SynthOut :=
  if env.binaryOnPath = false then
    Except.error (PyErr.runtimeError
      "Piper binary not found. Install Piper and ensure it is on the PATH.")
  else
    let model_path := piperResolveModel prov lang
    if env.pathExists model_path = false then
      Except.error (PyErr.runtimeError
        ("Piper model not found at '" ++ model_path ++ "'."))
    else
      match env.runPiper with
      | Except.error e =>
        Except.error (PyErr.runtimeError ("Piper synthesis failed: " ++ e))
      | Except.ok bytes =>
        Except.ok
          { audio_bytes := bytes, normalized_text := text, format := "wav" }

/-! ### Coqui provider (`services/tts_providers.py`, class
`CoquiTTSProvider`)

`__init__` attempts `from TTS.api import TTS` and records the class, or
`None` when the import fails — construction itself never raises.
`synthesize` raises `RuntimeError` when the recorded class is `None`. -/

/-- The `CoquiTTSProvider` state after `__init__`
(`tts_providers.py:241-249`): `tts_class_present` records whether the
`TTS` module loaded (`self._tts_class is not None`). -/
structure CoquiTTSProvider where
  model_name : String
  vocoder : Option String
  tts_class_present : Bool

/-- `CoquiTTSProvider.__init__(model_name, vocoder)` run in a process where
the `TTS` library may or may not be importable; the import failure is
swallowed (`tts_providers.py:244-249`). -/
def coquiInit (ttsLibAvailable : Bool) (model_name : String)
    (vocoder : Option String) : CoquiTTSProvider :=
  { model_name := model_name, vocoder := vocoder,
    tts_class_present := ttsLibAvailable }

/-- Environment for one `CoquiTTSProvider.synthesize` call: the outcome of
constructing the model and writing the audio file (uncaught exceptions
propagate). -/
structure CoquiEnv where
  coquiCall : Except PyErr (List Nat)

/-- `CoquiTTSProvider.synthesize(text, lang, ...)`
(`tts_providers.py:251-287`); the language argument is accepted but unused,
as in the source. -/
def coquiSynthesize (prov : CoquiTTSProvider) (env : CoquiEnv)
    (text lang : String) : Except PyErr SynthOut :=
  if prov.tts_class_present = false then
    Except.error (PyErr.runtimeError
      ("Coqui TTS library is not installed. Install 'TTS' and ensure GPU" ++
        " drivers are available."))
  else
    match env.coquiCall with
    | Except.error e => Except.error e
    | Except.ok bytes =>
      Except.ok
        { audio_bytes := bytes, normalized_text := text, format := "wav" }

/-! ### Streamlit cache lookup (`app/app.py`, `main`, step 3)

The Streamlit app derives the same MD5 digest shape
(`f"{translated_text}_{target_lang_code}_{settings_hash}"` with
`settings_hash = f"{voice_gender}_{age_tone}_{speaking_speed:.1f}"`), then
scans `os.listdir(output_dir)` for the first `.mp3` whose name contains both
the digest and the lowercased language name, reusing it instead of calling
`text_to_speech`.  The slider's `speaking_speed`, a fixed-precision decimal,
is carried as its `f"{speed:.1f}"` rendering `speedStr`. -/

/-- One Streamlit synthesis request (the inputs of `main`'s step 3,
`app/app.py:431-441`): the translated text, the target language code and
display name, the voice settings and the formatted speed. -/
structure StreamlitReq where
  translated_text : String
  target_lang_code : String
  target_language : String
  voice_gender : String
  age_tone : String
  speedStr : String
deriving DecidableEq, Repr

/-- `content_hash` of `app/app.py:434-435`. -/
def streamlitKey (r : StreamlitReq) : String :=
  md5Hex8 (r.translated_text ++ "_" ++ r.target_lang_code ++ "_" ++
    r.voice_gender ++ "_" ++ r.age_tone ++ "_" ++ r.speedStr)

/-- `"speed" + f"{speaking_speed:.1f}"` with `'.'` replaced by `'p'`
(`app/app.py:468`). -/
def speedSlug (speedStr : String) : String :=
  "speed" ++ ⟨speedStr.data.map (fun c => if c = '.' then 'p' else c)⟩

/-- The generated filename of `app/app.py:469`. -/
def streamlitFilename (r : StreamlitReq) (timestamp : String) : String :=
  "speech_" ++ pyLower r.target_language ++ "_" ++ pyLower r.voice_gender ++
    "_" ++ pyLower r.age_tone ++ "_" ++
    get_voice_by_gender_and_age r.voice_gender r.age_tone ++ "_" ++
    speedSlug r.speedStr ++ "_" ++ timestamp ++ "_" ++ streamlitKey r ++
    ".mp3"

/-- The cache-lookup predicate of `app/app.py:449`: an `.mp3` whose name
contains both the digest and the lowercased language name. -/
def streamlitCacheHit (content_hash target_lang_name file : String) : Bool :=
  pyEndsWith file ".mp3" && strContains file.data content_hash.data &&
    strContains file.data target_lang_name.data

/-- The directory scan of `app/app.py:447-451`: the first listed file
matching the cache predicate. -/
def streamlitLookup (files : List String)
    (content_hash target_lang_name : String) : Option String :=
  files.find? (streamlitCacheHit content_hash target_lang_name)

/-- Step 3 of `main` (`app/app.py:443-479`): reuse the first cache hit, else
invoke the speech service on a fresh filename.  Returns whether the provider
was invoked and the file used. -/
def streamlitStep3 (files : List String) (r : StreamlitReq)
    (timestamp : String) : Bool × String :=
  match streamlitLookup files (streamlitKey r) (pyLower r.target_language) with
  | some f => (false, f)
  | none => (true, streamlitFilename r timestamp)

/-! ### Helper lemmas -/

theorem strACL {x u v : String} (h : x ++ u = x ++ v) : u = v := by
  have hd : x.data ++ u.data = x.data ++ v.data := by
    have := congrArg String.data h
    simpa [String.data_append] using this
  exact congrArg String.mk (List.append_cancel_left hd)

theorem strACR {u v y : String} (h : u ++ y = v ++ y) : u = v := by
  have hd : u.data ++ y.data = v.data ++ y.data := by
    have := congrArg String.data h
    simpa [String.data_append] using this
  exact congrArg String.mk (List.append_cancel_right hd)

theorem str_append_ne_empty_left {s : String} (t : String) (h : s ≠ "") :
    s ++ t ≠ "" := by
  intro he
  apply h
  have hd := congrArg String.data he
  simp only [String.data_append] at hd
  have : s.data = [] := (List.append_eq_nil.mp hd).1
  exact congrArg String.mk this

theorem lookup_mem {α : Type} [BEq α] [LawfulBEq α] {β : Type} {l : List (α × β)}
    {k : α} {v : β} (h : List.lookup k l = some v) : (k, v) ∈ l := by
  induction l with
  | nil => rw [List.lookup] at h; cases h
  | cons hd tl ih =>
    obtain ⟨a, b⟩ := hd
    by_cases hk : k = a
    · subst hk
      simp [List.lookup] at h
      subst h
      exact List.mem_cons_self _ _
    · have hkb : (k == a) = false := beq_eq_false_iff_ne.mpr hk
      simp [List.lookup, hkb] at h
      exact List.mem_cons_of_mem _ (ih h)

theorem strContains_of_isPrefixOf {s b : List Char} (h : s.isPrefixOf b = true) :
    strContains b s = true := by
  cases b with
  | nil =>
    cases s with
    | nil => rfl
    | cons c cs => simp [List.isPrefixOf] at h
  | cons c rest =>
    rw [strContains]
    simp [h]

theorem strContains_of_append (x s y : List Char) :
    strContains (x ++ (s ++ y)) s = true := by
  have hp : s.isPrefixOf (s ++ y) = true :=
    List.isPrefixOf_iff_prefix.mpr (List.prefix_append s y)
  induction x with
  | nil =>
    rw [List.nil_append]
    exact strContains_of_isPrefixOf hp
  | cons c rest ih =>
    rw [List.cons_append, strContains]
    simp [ih]

theorem pyEndsWith_append (a suf : String) : pyEndsWith (a ++ suf) suf = true := by
  simp [pyEndsWith, String.data_append, List.isSuffixOf_iff_suffix,
    List.suffix_append]

theorem takeWhile_append_of_all {p : Char → Bool} {l₁ : List Char}
    (l₂ : List Char) (h : ∀ c ∈ l₁, p c) :
    List.takeWhile p (l₁ ++ l₂) = l₁ ++ List.takeWhile p l₂ := by
  induction l₁ with
  | nil => simp
  | cons c rest ih =>
    have hc : p c := h c (by simp)
    simp only [List.cons_append, List.takeWhile_cons, hc, if_true]
    rw [ih (fun d hd => h d (by simp [hd]))]

theorem dropWhile_head_false {p : Char → Bool} {l : List Char} {c : Char}
    {rest : List Char} (h : List.dropWhile p l = c :: rest) : p c = false := by
  induction l with
  | nil => simp [List.dropWhile] at h
  | cons a tl ih =>
    rw [List.dropWhile_cons] at h
    by_cases ha : p a
    · simp only [ha, if_true] at h
      exact ih h
    · simp only [ha] at h
      simp only [Bool.false_eq_true, if_false] at h
      cases h
      simpa using ha

theorem pathBasename_no_slash (p : String) :
    ∀ c ∈ (pathBasename p).data, c ≠ '/' := by
  intro c hc
  have hc' : c ∈ p.data.reverse.takeWhile (· != '/') := by
    simpa [pathBasename] using hc
  have := List.mem_takeWhile_imp hc'
  simpa using this

theorem pathBasename_eq_self {n : String} (h : ∀ c ∈ n.data, c ≠ '/') :
    pathBasename n = n := by
  unfold pathBasename
  have ht : n.data.reverse.takeWhile (· != '/') = n.data.reverse := by
    refine List.takeWhile_eq_self_iff.mpr ?_
    intro c hc
    have : c ∈ n.data := List.mem_reverse.mp hc
    simpa using h c this
  rw [ht, List.reverse_reverse]

theorem pathBasename_append_slash {a : String} (n : String)
    (ha : a.data.getLast? = some '/') (hn : ∀ c ∈ n.data, c ≠ '/') :
    pathBasename (a ++ n) = n := by
  unfold pathBasename
  have hd : (a ++ n).data.reverse = n.data.reverse ++ a.data.reverse := by
    simp [String.data_append]
  rw [hd]
  have hall : ∀ c ∈ n.data.reverse, (c != '/') = true := by
    intro c hc
    have : c ∈ n.data := List.mem_reverse.mp hc
    simpa using hn c this
  rw [takeWhile_append_of_all _ hall]
  have hhead : a.data.reverse.head? = some '/' := by
    rw [List.head?_reverse]
    exact ha
  have hrev : a.data.reverse.takeWhile (· != '/') = [] := by
    cases hr : a.data.reverse with
    | nil => rfl
    | cons c rest =>
      have : c = '/' := by
        rw [hr] at hhead
        simpa using hhead
      subst this
      simp [List.takeWhile_cons]
  rw [hrev, List.append_nil, List.reverse_reverse]

theorem pathBasename_join {d n : String} (hn : ∀ c ∈ n.data, c ≠ '/') :
    pathBasename (pathJoin d n) = n := by
  have hhead : n.data.head? ≠ some '/' := by
    cases hd : n.data with
    | nil => simp
    | cons c rest =>
      have : c ≠ '/' := hn c (by simp [hd])
      simp [this]
  unfold pathJoin
  rw [if_neg hhead]
  by_cases he : d = "" ∨ d.data.getLast? = some '/'
  · rw [if_pos (by simpa using he)]
    rcases he with he | he
    · subst he
      have : ("" ++ n) = n := by
        apply congrArg String.mk
        simp [String.data_append]
      rw [this]
      exact pathBasename_eq_self hn
    · exact pathBasename_append_slash n he hn
  · rw [if_neg (by simpa using he)]
    have hlast : (d ++ "/").data.getLast? = some '/' := by
      have : (d ++ "/").data = d.data ++ ['/'] := by
        simp [String.data_append]
      rw [this]
      exact List.getLast?_concat d.data
    have := pathBasename_append_slash (a := d ++ "/") n hlast hn
    rw [String.append_assoc] at this
    rw [← String.append_assoc] at this
    exact this

theorem pathSplitext_concat (s : String) :
    (pathSplitext s).1.data ++ (pathSplitext s).2.data = s.data := by
  unfold pathSplitext
  have hsplit : s.data.reverse.takeWhile (· != '.') ++
      s.data.reverse.dropWhile (· != '.') = s.data.reverse :=
    List.takeWhile_append_dropWhile _ _
  dsimp only
  split
  · simp
  · rename_i c preR hre
    have hc : c = '.' := by
      have := dropWhile_head_false hre
      simpa using this
    by_cases hany : preR.any (· != '.') = true
    · rw [if_pos hany]
      rw [hre] at hsplit
      have hs2 : preR.reverse ++ [c] ++
          (s.data.reverse.takeWhile (· != '.')).reverse = s.data := by
        have h2 := congrArg List.reverse hsplit
        simpa [List.reverse_append] using h2
      subst hc
      simpa [List.append_assoc] using hs2
    · rw [if_neg hany]
      simp

theorem pitchOutputName_no_slash (p : String) (d : Int)
    (hd : ∀ c ∈ (toString d).data, c ≠ '/') :
    ∀ c ∈ (pitchOutputName p d).data, c ≠ '/' := by
  intro c hc
  have hbn := pathBasename_no_slash p
  have hconcat := pathSplitext_concat (pathBasename p)
  have hmem : c ∈ (pathSplitext (pathBasename p)).1.data ∨
      c ∈ ("_pitch_" : String).data ∨ c ∈ (toString d).data ∨
      c ∈ (if (pathSplitext (pathBasename p)).2 = "" then (".mp3" : String)
           else (pathSplitext (pathBasename p)).2).data := by
    simpa [pitchOutputName, String.data_append, List.mem_append,
      or_assoc] using hc
  rcases hmem with h | h | h | h
  · exact hbn c (by rw [← hconcat]; exact List.mem_append_left _ h)
  · have hall : ∀ x ∈ ("_pitch_" : String).data, x ≠ '/' := by decide
    exact hall c h
  · exact hd c h
  · by_cases he : (pathSplitext (pathBasename p)).2 = ""
    · rw [if_pos he] at h
      have hall : ∀ x ∈ (".mp3" : String).data, x ≠ '/' := by decide
      exact hall c h
    · rw [if_neg he] at h
      exact hbn c (by rw [← hconcat]; exact List.mem_append_right _ h)

theorem pitchOutputName_length (p : String) (d : Int) :
    (pitchOutputName p d).data.length =
      (pathSplitext (pathBasename p)).1.data.length + 7 +
      (toString d).data.length +
      (if (pathSplitext (pathBasename p)).2 = "" then (".mp3" : String)
       else (pathSplitext (pathBasename p)).2).data.length := by
  have h7 : ("_pitch_" : String).data.length = 7 := by decide
  simp [pitchOutputName, String.data_append, List.length_append, h7]
  omega

theorem pathBasename_pitchOutputPath (p : String) (d : Int)
    (hd : ∀ c ∈ (toString d).data, c ≠ '/') :
    pathBasename (pitchOutputPath p d) = pitchOutputName p d :=
  pathBasename_join (pitchOutputName_no_slash p d hd)

theorem pitchOutputPath_ne_self (p : String) (d : Int)
    (hd : ∀ c ∈ (toString d).data, c ≠ '/')
    (hdl : 0 < (toString d).data.length) : pitchOutputPath p d ≠ p := by
  intro he
  have hb := congrArg pathBasename he
  rw [pathBasename_pitchOutputPath p d hd] at hb
  have hlen := congrArg (fun s : String => s.data.length) hb
  simp only at hlen
  rw [pitchOutputName_length] at hlen
  have hconcat := pathSplitext_concat (pathBasename p)
  have hbnlen : (pathBasename p).data.length =
      (pathSplitext (pathBasename p)).1.data.length +
      (pathSplitext (pathBasename p)).2.data.length := by
    rw [← hconcat, List.length_append]
  by_cases he2 : (pathSplitext (pathBasename p)).2 = ""
  · rw [if_pos he2] at hlen
    rw [he2] at hbnlen
    have h4 : ((".mp3" : String)).data.length = 4 := by decide
    have h0 : (("" : String)).data.length = 0 := by decide
    rw [h4] at hlen
    rw [h0] at hbnlen
    omega
  · rw [if_neg he2] at hlen
    omega

theorem pitchOutputPath_ne (p : String) (d e : Int)
    (hd : ∀ c ∈ (toString d).data, c ≠ '/')
    (he : ∀ c ∈ (toString e).data, c ≠ '/')
    (hne : (toString d).data.length ≠ (toString e).data.length) :
    pitchOutputPath p d ≠ pitchOutputPath p e := by
  intro heq
  have hb := congrArg pathBasename heq
  rw [pathBasename_pitchOutputPath p d hd,
    pathBasename_pitchOutputPath p e he] at hb
  have hlen := congrArg (fun s : String => s.data.length) hb
  simp only at hlen
  rw [pitchOutputName_length, pitchOutputName_length] at hlen
  omega

/-! ### Claim theorems -/

/-- C6: with ffmpeg available and the source file existing, `apply_pitch`
with semitone delta 0 returns the original path unchanged and writes no
file; deltas +2 and -2 return output paths (derived deterministically from
the input name and the signed delta) that are distinct from each other and
from the input path. -/
theorem pitch_noop_and_distinct_outputs (env : PitchEnv) (p f : String)
    (hff : env.ffmpegPath = some f) (hex : env.pathExists p = true) :
    apply_pitch env p (PyValue.int 0) = Except.ok (p, []) ∧
    apply_pitch env p (PyValue.int 2) =
      Except.ok (pitchOutputPath p 2, [pitchOutputPath p 2]) ∧
    apply_pitch env p (PyValue.int (-2)) =
      Except.ok (pitchOutputPath p (-2), [pitchOutputPath p (-2)]) ∧
    pitchOutputPath p 2 ≠ pitchOutputPath p (-2) ∧
    pitchOutputPath p 2 ≠ p ∧ pitchOutputPath p (-2) ≠ p := by
  refine ⟨?_, ?_, ?_, ?_, ?_, ?_⟩
  · unfold apply_pitch
    rw [hff]
    simp
  · unfold apply_pitch
    rw [hff]
    simp [hex]
  · unfold apply_pitch
    rw [hff]
    simp [hex]
  · exact pitchOutputPath_ne p 2 (-2) (by decide) (by decide) (by decide)
  · exact pitchOutputPath_ne_self p 2 (by decide) (by decide)
  · exact pitchOutputPath_ne_self p (-2) (by decide) (by decide)

/-- C6 witness: the theorem at a concrete environment and path. -/
theorem pitch_noop_and_distinct_outputs_witness :
    apply_pitch ⟨some "ffmpeg", fun _ => true⟩ "output/speech.mp3"
      (PyValue.int 0) = Except.ok ("output/speech.mp3", []) ∧
    apply_pitch ⟨some "ffmpeg", fun _ => true⟩ "output/speech.mp3"
      (PyValue.int 2) =
      Except.ok (pitchOutputPath "output/speech.mp3" 2,
        [pitchOutputPath "output/speech.mp3" 2]) ∧
    apply_pitch ⟨some "ffmpeg", fun _ => true⟩ "output/speech.mp3"
      (PyValue.int (-2)) =
      Except.ok (pitchOutputPath "output/speech.mp3" (-2),
        [pitchOutputPath "output/speech.mp3" (-2)]) ∧
    pitchOutputPath "output/speech.mp3" 2 ≠
      pitchOutputPath "output/speech.mp3" (-2) ∧
    pitchOutputPath "output/speech.mp3" 2 ≠ "output/speech.mp3" ∧
    pitchOutputPath "output/speech.mp3" (-2) ≠ "output/speech.mp3" :=
  pitch_noop_and_distinct_outputs ⟨some "ffmpeg", fun _ => true⟩
    "output/speech.mp3" "ffmpeg" rfl rfl

/-- C10: `apply_pitch` checks the ffmpeg toolchain before its zero-delta
short-circuit and before its integer type guard (so a missing toolchain
errors even for delta 0 or a non-integer delta); a non-integer delta raises
a `ValueError`; the source-existence check applies only to non-zero deltas
(delta 0 succeeds whatever the filesystem says, a non-zero delta on a
missing file raises `FileNotFoundError`). -/
theorem pitch_guard_order (env : PitchEnv) (p : String) :
    (env.ffmpegPath = none → ∀ d, apply_pitch env p d =
      Except.error (PyErr.runtimeError
        ("FFmpeg binary not found. Set the FFMPEG_BINARY environment" ++
          " variable to the full path of ffmpeg.exe."))) ∧
    (∀ f r, env.ffmpegPath = some f →
      apply_pitch env p (PyValue.nonInt r) = Except.error (PyErr.valueError
        "pitch_change must be an integer value representing semitones.")) ∧
    (∀ f, env.ffmpegPath = some f →
      apply_pitch env p (PyValue.int 0) = Except.ok (p, [])) ∧
    (∀ f i, env.ffmpegPath = some f → i ≠ 0 → env.pathExists p = false →
      apply_pitch env p (PyValue.int i) =
        Except.error (PyErr.fileNotFoundError
          ("Audio file not found: " ++ p))) := by
  refine ⟨?_, ?_, ?_, ?_⟩
  · intro h d
    unfold apply_pitch
    rw [h]
    cases d <;> rfl
  · intro f r h
    unfold apply_pitch
    rw [h]
  · intro f h
    unfold apply_pitch
    rw [h]
    simp
  · intro f i h hi hex
    unfold apply_pitch
    rw [h]
    simp [hi, hex]

/-- C10 witness: the guards at a concrete environment, path and deltas. -/
theorem pitch_guard_order_witness :
    apply_pitch ⟨none, fun _ => true⟩ "speech.mp3" (PyValue.int 0) =
      Except.error (PyErr.runtimeError
        ("FFmpeg binary not found. Set the FFMPEG_BINARY environment" ++
          " variable to the full path of ffmpeg.exe.")) ∧
    apply_pitch ⟨some "ffmpeg", fun _ => false⟩ "speech.mp3"
      (PyValue.nonInt "2.5") = Except.error (PyErr.valueError
        "pitch_change must be an integer value representing semitones.") ∧
    apply_pitch ⟨some "ffmpeg", fun _ => false⟩ "speech.mp3"
      (PyValue.int 0) = Except.ok ("speech.mp3", []) ∧
    apply_pitch ⟨some "ffmpeg", fun _ => false⟩ "speech.mp3"
      (PyValue.int 2) = Except.error (PyErr.fileNotFoundError
        "Audio file not found: speech.mp3") := by
  refine ⟨?_, ?_, ?_, ?_⟩
  · exact (pitch_guard_order ⟨none, fun _ => true⟩ "speech.mp3").1 rfl _
  · exact (pitch_guard_order ⟨some "ffmpeg", fun _ => false⟩
      "speech.mp3").2.1 "ffmpeg" "2.5" rfl
  · exact (pitch_guard_order ⟨some "ffmpeg", fun _ => false⟩
      "speech.mp3").2.2.1 "ffmpeg" rfl
  · have := (pitch_guard_order ⟨some "ffmpeg", fun _ => false⟩
      "speech.mp3").2.2.2 "ffmpeg" 2 rfl (by decide) rfl
    simpa using this

/-- C1 counterexample: on the Azure engine branch the cache key ignores the
voice settings — two requests identical except for the gender (Male vs
Female) produce the identical key, so a change to the gender field does not
change the key. -/
theorem cacheKey_ignores_gender_cex :
    cacheKey "Hello" "te" "Male" "Adult" "azure" 0 0 =
      cacheKey "Hello" "te" "Female" "Adult" "azure" 0 0 ∧
    "Male" ≠ "Female" :=
  ⟨by simp [cacheKey], by decide⟩

/-- C1 (amended): the cache key is a deterministic function of its request
fields, but the two branches hash different field sets.  On the Azure branch
the key depends only on (text, language, clamped pitch, clamped rate): any
change of gender or age tone leaves it unchanged.  On the legacy branch the
hashed string includes (text, language, gender, age tone, engine, voice
identifier), and a change to any single one of those fields — the others
held fixed — changes the hashed string. -/
theorem cacheKey_field_sensitivity :
    (∀ t l g a g' a' p r,
      cacheKey t l g a "azure" p r = cacheKey t l g' a' "azure" p r) ∧
    (∀ t t' l g a e v, legacyKeyInput t l g a e v = legacyKeyInput t' l g a e v
      → t = t') ∧
    (∀ t l l' g a e v, legacyKeyInput t l g a e v = legacyKeyInput t l' g a e v
      → l = l') ∧
    (∀ t l g g' a e v, legacyKeyInput t l g a e v = legacyKeyInput t l g' a e v
      → g = g') ∧
    (∀ t l g a a' e v, legacyKeyInput t l g a e v = legacyKeyInput t l g a' e v
      → a = a') ∧
    (∀ t l g a e e' v, legacyKeyInput t l g a e v = legacyKeyInput t l g a e' v
      → e = e') ∧
    (∀ t l g a e v v', legacyKeyInput t l g a e v = legacyKeyInput t l g a e v'
      → v = v') := by
  refine ⟨?_, ?_, ?_, ?_, ?_, ?_, ?_⟩
  · intro t l g a g' a' p r
    rfl
  · intro t t' l g a e v h
    simp only [legacyKeyInput, settingsHash, String.append_assoc] at h
    exact strACR h
  · intro t l l' g a e v h
    simp only [legacyKeyInput, settingsHash, String.append_assoc] at h
    exact strACR (strACL (strACL h))
  · intro t l g g' a e v h
    simp only [legacyKeyInput, settingsHash, String.append_assoc] at h
    exact strACR (strACL (strACL (strACL (strACL h))))
  · intro t l g a a' e v h
    simp only [legacyKeyInput, settingsHash, String.append_assoc] at h
    exact strACR (strACL (strACL (strACL (strACL (strACL (strACL h))))))
  · intro t l g a e e' v h
    simp only [legacyKeyInput, settingsHash, String.append_assoc] at h
    exact strACR (strACL (strACL (strACL (strACL (strACL (strACL
      (strACL (strACL h))))))))
  · intro t l g a e v v' h
    simp only [legacyKeyInput, settingsHash, String.append_assoc] at h
    exact strACL (strACL (strACL (strACL (strACL (strACL (strACL
      (strACL (strACL (strACL h)))))))))

/-- C1 witness: the amended theorem at concrete requests — an Azure-branch
key unchanged under a gender and age-tone change, and a legacy hash input
pinned down by its gender slot. -/
theorem cacheKey_field_sensitivity_witness :
    cacheKey "Hello" "te" "Male" "Child" "azure" 2 (-10) =
      cacheKey "Hello" "te" "Female" "Senior" "azure" 2 (-10) ∧
    ("Male" : String) = "Male" :=
  ⟨cacheKey_field_sensitivity.1 "Hello" "te" "Male" "Child" "Female"
      "Senior" 2 (-10),
    cacheKey_field_sensitivity.2.2.2.1 "Hello" "te" "Male" "Male" "Adult"
      "openai" "onyx" rfl⟩

theorem truthyLookup_eq {voices : List (String × String)}
    (hv : ∀ q ∈ voices, q.2 ≠ "") (k : String) :
    truthyLookup voices k = List.lookup k voices := by
  unfold truthyLookup
  cases hlk : List.lookup k voices with
  | none => rfl
  | some v =>
    have hm : (k, v) ∈ voices := lookup_mem hlk
    have hne : v ≠ "" := hv (k, v) hm
    simp [hne]

theorem resolve_in_spec_order (voices : List (String × String))
    (language gender : String) (hv : ∀ q ∈ voices, q.2 ≠ "") :
    (get_voice_for_gender_in voices language gender).toOption =
      resolveSpecOrder voices gender := by
  cases voices with
    | nil => rfl
    | cons hd tl =>
      have hne : hd :: tl ≠ ([] : List (String × String)) := by simp
      unfold get_voice_for_gender_in resolveSpecOrder
      rw [if_neg hne]
      rw [truthyLookup_eq hv, truthyLookup_eq hv, truthyLookup_eq hv]
      cases h1 : List.lookup (pyLower gender) (hd :: tl) with
      | some v => rfl
      | none =>
        cases h2 : List.lookup "female" (hd :: tl) with
        | some v => rfl
        | none =>
          cases h3 : List.lookup "male" (hd :: tl) with
          | some v => rfl
          | none =>
            have hhd : (hd.2 != "") = true :=
              bne_iff_ne.mpr (hv hd (by simp))
            have hfind : List.find? (fun q => q.2 != "") (hd :: tl) =
                some hd := List.find?_cons_of_pos tl hhd
            rw [hfind]
            rfl

/-- C4: over any gender dict whose configured voices are non-empty,
`get_voice_for_gender` resolves in exactly the order: exact
(language, gender) entry → the `female` entry → the `male` entry → any
configured voice → not-configured; the gender comparison is
case-insensitive (two genders with the same lowercasing resolve alike); and
the same resolution order holds for every language against the repository's
actual `AZURE_VOICES` catalog. -/
theorem voice_resolution_order (voices : List (String × String))
    (language gender gender' : String) (hv : ∀ q ∈ voices, q.2 ≠ "")
    (hg : pyLower gender = pyLower gender') :
    (get_voice_for_gender_in voices language gender).toOption =
      resolveSpecOrder voices gender ∧
    get_voice_for_gender_in voices language gender =
      get_voice_for_gender_in voices language gender' ∧
    (∀ lang2 g2, (get_voice_for_gender lang2 g2).toOption =
      resolveSpecOrder ((List.lookup lang2 AZURE_VOICES).getD []) g2) := by
  refine ⟨resolve_in_spec_order voices language gender hv, ?_, ?_⟩
  · unfold get_voice_for_gender_in
    rw [hg]
  · intro lang2 g2
    unfold get_voice_for_gender
    cases houter : List.lookup lang2 AZURE_VOICES with
    | none => rfl
    | some vs =>
      have hall : ∀ e ∈ AZURE_VOICES, ∀ q ∈ e.2, q.2 ≠ "" := by decide
      have hmem := lookup_mem houter
      exact resolve_in_spec_order vs lang2 g2 (hall (lang2, vs) hmem)

/-- C4 witness: the theorem at a constructed two-entry catalog, for an
unconfigured gender spelled in mixed case. -/
theorem voice_resolution_order_witness :
    (get_voice_for_gender_in [("female", "F-voice"), ("male", "M-voice")]
        "Telugu" "Neutral").toOption =
      resolveSpecOrder [("female", "F-voice"), ("male", "M-voice")]
        "Neutral" ∧
    get_voice_for_gender_in [("female", "F-voice"), ("male", "M-voice")]
        "Telugu" "Neutral" =
      get_voice_for_gender_in [("female", "F-voice"), ("male", "M-voice")]
        "Telugu" "NEUTRAL" :=
  ⟨(voice_resolution_order [("female", "F-voice"), ("male", "M-voice")]
      "Telugu" "Neutral" "NEUTRAL" (by decide) (by decide)).1,
    (voice_resolution_order [("female", "F-voice"), ("male", "M-voice")]
      "Telugu" "Neutral" "NEUTRAL" (by decide) (by decide)).2.1⟩

/-- C5 counterexample: for a language with no catalog entry the resolver
does not return a first-class not-configured value — it raises (modelled:
returns the `KeyError` branch `Except.error`), here at the concrete
unconfigured language `"Spanish"`. -/
theorem voice_not_configured_raises_cex :
    get_voice_for_gender "Spanish" "female" =
      Except.error "No Azure voices configured for 'Spanish'." := by
  rfl

/-- C5 (amended): when voice-catalog resolution finds no configured voice
for the requested language it raises a `KeyError` (with the
"No Azure voices configured" message) rather than returning a first-class
NotConfigured value; callers that want to branch must catch the exception,
as `app.py:167-174` does. -/
theorem voice_not_configured_raises (language gender : String)
    (h : List.lookup language AZURE_VOICES = none) :
    get_voice_for_gender language gender =
      Except.error ("No Azure voices configured for '" ++ language ++ "'.") := by
  unfold get_voice_for_gender
  rw [h]
  rfl

/-- C5 witness: the amended theorem at the unconfigured language
`"French"`. -/
theorem voice_not_configured_raises_witness :
    get_voice_for_gender "French" "male" =
      Except.error ("No Azure voices configured for '" ++ "French" ++ "'.") :=
  voice_not_configured_raises "French" "male" (by decide)

/-- The result-shape invariant of claim C2: a failed result carries no file
path and a non-empty message; a successful result carries a file path. -/
def resultConsistent (res : TTSResult) : Prop :=
  (res.success = false → res.file_path = none ∧ res.message ≠ "") ∧
  (res.success = true → res.file_path ≠ none)

theorem gttsSection_consistent (env : TTSEnv)
    (lang_code filename file_path : String) (isUnsupported co : Bool) :
    resultConsistent
      (gttsSection env lang_code filename file_path isUnsupported co).result := by
  obtain ⟨oR, oC, oFE, gC, gFE⟩ := env
  unfold resultConsistent
  cases isUnsupported <;> cases gC <;> cases gFE <;>
    simp only [gttsSection] <;>
    split_ifs <;>
    refine ⟨fun hs => ⟨by simp_all, ?_⟩, fun hs => by simp_all⟩ <;>
    dsimp only <;>
    (repeat' apply str_append_ne_empty_left) <;> decide

/-- C2: every result of `SpeechService.text_to_speech` is well-shaped —
`success = false` implies the file path is absent and the message is
non-empty, and `success = true` implies the file path is present — for every
input and every environment (OpenAI readiness, call outcomes, filesystem). -/
theorem synthesis_result_consistent (env : TTSEnv)
    (output_dir text lang_code filename voice : String)
    (use_openai_preference : Bool) :
    resultConsistent
      (text_to_speech env output_dir text lang_code filename voice
        use_openai_preference).result := by
  simp only [text_to_speech]
  repeat' split
  all_goals
    first
      | exact gttsSection_consistent _ _ _ _ _ _
      | (refine ⟨fun hs => ?_, fun hs => ?_⟩ <;> dsimp only at hs ⊢ <;>
         first
           | exact absurd hs (by decide)
           | (refine ⟨rfl, ?_⟩
              repeat' apply str_append_ne_empty_left
              decide)
           | simp)

/-- C2 witness: the invariant at a concrete environment in which both
backends fail. -/
theorem synthesis_result_consistent_witness :
    resultConsistent
      (text_to_speech ⟨false, Except.error "no key", false,
          Except.error "boom", false⟩
        "output" "Hello" "te" "x.mp3" "nova" true).result :=
  synthesis_result_consistent ⟨false, Except.error "no key", false,
    Except.error "boom", false⟩ "output" "Hello" "te" "x.mp3" "nova" true

/-- C3: for a language whose lowercasing lies in the gTTS denylist
`{'as','or','pa'}`, `text_to_speech` never invokes the gTTS backend; a
success is only possible when the OpenAI client is ready, its call succeeds
and the file is written — so an unavailable or failing OpenAI ends the
request in a failure result, not a gTTS attempt; and with non-empty text and
a ready OpenAI client the routing does invoke OpenAI. -/
theorem denylist_never_invokes_gtts (env : TTSEnv)
    (output_dir text lang_code filename voice : String)
    (use_openai_preference : Bool)
    (hl : GTTS_UNSUPPORTED_LANGUAGES.contains (pyLower lang_code) = true) :
    (text_to_speech env output_dir text lang_code filename voice
        use_openai_preference).calledGtts = false ∧
    ((text_to_speech env output_dir text lang_code filename voice
        use_openai_preference).result.success = true →
      env.openaiReady = true ∧ env.openaiCall.isOk = true ∧
        env.openaiFileExists = true) ∧
    (pyStrip text ≠ "" → env.openaiReady = true →
      (text_to_speech env output_dir text lang_code filename voice
        use_openai_preference).calledOpenai = true) := by
  simp only [text_to_speech, gttsSection, hl, Bool.true_and]
  repeat' split
  all_goals refine ⟨?_, fun hs => ?_, fun ht hr => ?_⟩
  all_goals
    first
      | rfl
      | (dsimp only at hs ⊢
         exact absurd hs (by decide))
      | simp_all [Except.isOk, Except.toBool]

/-- C3 witness: the denylisted language `'as'` with OpenAI unconfigured —
gTTS is still not invoked and success is impossible. -/
theorem denylist_never_invokes_gtts_witness :
    (text_to_speech ⟨false, Except.error "no key", false, Except.ok (),
        true⟩ "output" "Hello" "as" "x.mp3" "nova" true).calledGtts = false ∧
    ((text_to_speech ⟨false, Except.error "no key", false, Except.ok (),
        true⟩ "output" "Hello" "as" "x.mp3" "nova" true).result.success =
        true →
      (false : Bool) = true ∧
        (Except.error "no key" : Except String Unit).isOk = true ∧
        (false : Bool) = true) ∧
    (pyStrip "Hello" ≠ "" → (false : Bool) = true →
      (text_to_speech ⟨false, Except.error "no key", false, Except.ok (),
        true⟩ "output" "Hello" "as" "x.mp3" "nova" true).calledOpenai =
        true) :=
  denylist_never_invokes_gtts ⟨false, Except.error "no key", false,
    Except.ok (), true⟩ "output" "Hello" "as" "x.mp3" "nova" true
    (by decide)

theorem strContains_str (x s y : String) :
    strContains (x ++ s ++ y).data s.data = true := by
  have := strContains_of_append x.data s.data y.data
  simpa [String.data_append, List.append_assoc] using this

/-- C7: a listing that contains the filename persisted for a request also
yields a cache hit for an identical later request — the scan finds a file
containing both the digest and the language slug (the first such file, by
`find?`), and the provider is not invoked again. -/
theorem streamlit_cache_reuse (files : List String) (r : StreamlitReq)
    (t1 t2 : String) (hmem : streamlitFilename r t1 ∈ files) :
    (streamlitStep3 files r t2).1 = false ∧
    ∃ f, streamlitLookup files (streamlitKey r)
        (pyLower r.target_language) = some f ∧
      streamlitCacheHit (streamlitKey r) (pyLower r.target_language) f =
        true := by
  have hend : pyEndsWith (streamlitFilename r t1) ".mp3" = true := by
    unfold streamlitFilename
    exact pyEndsWith_append _ _
  have hkey : strContains (streamlitFilename r t1).data
      (streamlitKey r).data = true :=
    strContains_str ("speech_" ++ pyLower r.target_language ++ "_" ++
      pyLower r.voice_gender ++ "_" ++ pyLower r.age_tone ++ "_" ++
      get_voice_by_gender_and_age r.voice_gender r.age_tone ++ "_" ++
      speedSlug r.speedStr ++ "_" ++ t1 ++ "_") (streamlitKey r) ".mp3"
  have hlang : strContains (streamlitFilename r t1).data
      (pyLower r.target_language).data = true := by
    have h := strContains_str "speech_" (pyLower r.target_language)
      ("_" ++ pyLower r.voice_gender ++ "_" ++ pyLower r.age_tone ++ "_" ++
        get_voice_by_gender_and_age r.voice_gender r.age_tone ++ "_" ++
        speedSlug r.speedStr ++ "_" ++ t1 ++ "_" ++ streamlitKey r ++ ".mp3")
    have he : streamlitFilename r t1 = "speech_" ++
        pyLower r.target_language ++
        ("_" ++ pyLower r.voice_gender ++ "_" ++ pyLower r.age_tone ++ "_" ++
          get_voice_by_gender_and_age r.voice_gender r.age_tone ++ "_" ++
          speedSlug r.speedStr ++ "_" ++ t1 ++ "_" ++ streamlitKey r ++
          ".mp3") := by
      simp [streamlitFilename, String.append_assoc]
    rw [he]
    exact h
  have hhit : streamlitCacheHit (streamlitKey r) (pyLower r.target_language)
      (streamlitFilename r t1) = true := by
    unfold streamlitCacheHit
    rw [hend, hkey, hlang]
    rfl
  have hsome : (files.find? (streamlitCacheHit (streamlitKey r)
      (pyLower r.target_language))).isSome :=
    List.find?_isSome.mpr ⟨streamlitFilename r t1, hmem, hhit⟩
  obtain ⟨f, hf⟩ := Option.isSome_iff_exists.mp hsome
  constructor
  · unfold streamlitStep3 streamlitLookup
    rw [hf]
  · exact ⟨f, hf, List.find?_some hf⟩

/-- C7 witness: back-to-back identical requests — the listing holding the
first request's file yields a hit and no second provider call. -/
theorem streamlit_cache_reuse_witness :
    (streamlitStep3 [streamlitFilename
        ⟨"Hello", "te", "Telugu", "Female", "Adult", "1.0"⟩
        "20250101_120000"]
      ⟨"Hello", "te", "Telugu", "Female", "Adult", "1.0"⟩
      "20250101_120203").1 = false ∧
    ∃ f, streamlitLookup [streamlitFilename
          ⟨"Hello", "te", "Telugu", "Female", "Adult", "1.0"⟩
          "20250101_120000"]
        (streamlitKey ⟨"Hello", "te", "Telugu", "Female", "Adult", "1.0"⟩)
        (pyLower "Telugu") = some f ∧
      streamlitCacheHit
        (streamlitKey ⟨"Hello", "te", "Telugu", "Female", "Adult", "1.0"⟩)
        (pyLower "Telugu") f = true :=
  streamlit_cache_reuse
    [streamlitFilename ⟨"Hello", "te", "Telugu", "Female", "Adult", "1.0"⟩
      "20250101_120000"]
    ⟨"Hello", "te", "Telugu", "Female", "Adult", "1.0"⟩
    "20250101_120000" "20250101_120203" (List.mem_singleton.mpr rfl)

/-- C8 counterexample: constructing the Coqui provider with the `TTS`
library absent succeeds (construction records the failed import instead of
raising), and it is the later `synthesize` call that fails with the
missing-dependency `RuntimeError` — the configuration error is not reported
at construction time. -/
theorem coqui_dependency_error_at_call_cex :
    (coquiInit false "tts_models/multilingual/your_model_here"
        none).tts_class_present = false ∧
    coquiSynthesize
        (coquiInit false "tts_models/multilingual/your_model_here" none)
        ⟨Except.ok []⟩ "hello" "en" =
      Except.error (PyErr.runtimeError
        ("Coqui TTS library is not installed. Install 'TTS' and ensure GPU" ++
          " drivers are available.")) :=
  ⟨rfl, rfl⟩

/-- C8 (amended): the absent dependency is detected at construction (its
module load is attempted and the failure recorded in the provider,
construction itself never raising), and reported at call time: every `synthesize`
call on a provider built without the library fails with the
missing-dependency `RuntimeError`, while a provider built with the library
only propagates its model call's own outcome. -/
theorem coqui_dependency_error_timing :
    (∀ model_name vocoder,
      (coquiInit false model_name vocoder).tts_class_present = false ∧
      (coquiInit true model_name vocoder).tts_class_present = true) ∧
    (∀ model_name vocoder env text lang,
      coquiSynthesize (coquiInit false model_name vocoder) env text lang =
        Except.error (PyErr.runtimeError
          ("Coqui TTS library is not installed. Install 'TTS' and ensure" ++
            " GPU drivers are available."))) ∧
    (∀ model_name vocoder (env : CoquiEnv) text lang,
      coquiSynthesize (coquiInit true model_name vocoder) env text lang =
        match env.coquiCall with
        | Except.error e => Except.error e
        | Except.ok bytes => Except.ok ⟨bytes, text, "wav"⟩) :=
  ⟨fun _ _ => ⟨rfl, rfl⟩, fun _ _ _ _ _ => rfl, fun _ _ _ _ _ => rfl⟩

/-- C9: `PiperTTS.synthesize` resolves its model by trying the full
lowercased locale key first, then the base language key, then the default
model path (stated for tables whose configured model paths are non-empty,
as the shipped `DEFAULT_PROVIDERS` table is — an empty-string table value
is falsy and also falls back to the default); a missing binary or a missing
resolved model file raises (produces an error, hence no audio). -/
theorem piper_model_resolution (prov : PiperTTS) (env : PiperEnv)
    (text lang : String) (hfull : pyLower lang ≠ "")
    (hbase : headSplitDash (pyLower lang) ≠ "")
    (hv : ∀ q ∈ prov.models_by_language, q.2 ≠ "") :
    piperResolveModel prov lang =
      ((List.lookup (pyLower lang) prov.models_by_language).or
        (List.lookup (headSplitDash (pyLower lang))
          prov.models_by_language)).getD prov.model_path ∧
    (env.binaryOnPath = false →
      piperSynthesize prov env text lang = Except.error (PyErr.runtimeError
        "Piper binary not found. Install Piper and ensure it is on the PATH.")) ∧
    (env.binaryOnPath = true →
      env.pathExists (piperResolveModel prov lang) = false →
      piperSynthesize prov env text lang = Except.error (PyErr.runtimeError
        ("Piper model not found at '" ++ piperResolveModel prov lang ++
          "'."))) := by
  refine ⟨?_, ?_, ?_⟩
  · unfold piperResolveModel
    dsimp only
    rw [if_pos hfull, if_pos hbase]
    cases h1 : List.lookup (pyLower lang) prov.models_by_language with
    | some m =>
      have hm : m ≠ "" := hv (pyLower lang, m) (lookup_mem h1)
      simp [Option.or, hm]
    | none =>
      cases h2 : List.lookup (headSplitDash (pyLower lang))
          prov.models_by_language with
      | some m =>
        have hm : m ≠ "" := hv (headSplitDash (pyLower lang), m)
          (lookup_mem h2)
        simp [Option.or, hm]
      | none => simp [Option.or]
  · intro hb
    unfold piperSynthesize
    rw [hb]
    simp
  · intro hb hx
    unfold piperSynthesize
    rw [hb]
    simp [hx]

/-- C9 witness: resolution and failure modes at a concrete provider (a
`hi`-only model table), for the locale `"hi-IN"`. -/
theorem piper_model_resolution_witness :
    piperResolveModel ⟨"default.onnx", "piper", [("hi", "hi.onnx")]⟩
        "hi-IN" =
      ((List.lookup (pyLower "hi-IN") [("hi", "hi.onnx")]).or
        (List.lookup (headSplitDash (pyLower "hi-IN"))
          [("hi", "hi.onnx")])).getD "default.onnx" ∧
    ((false : Bool) = false →
      piperSynthesize ⟨"default.onnx", "piper", [("hi", "hi.onnx")]⟩
          ⟨false, fun _ => false, Except.ok []⟩ "Hello" "hi-IN" =
        Except.error (PyErr.runtimeError
          "Piper binary not found. Install Piper and ensure it is on the PATH.")) ∧
    ((false : Bool) = true →
      (fun _ => false : String → Bool)
          (piperResolveModel ⟨"default.onnx", "piper", [("hi", "hi.onnx")]⟩
            "hi-IN") = false →
      piperSynthesize ⟨"default.onnx", "piper", [("hi", "hi.onnx")]⟩
          ⟨false, fun _ => false, Except.ok []⟩ "Hello" "hi-IN" =
        Except.error (PyErr.runtimeError
          ("Piper model not found at '" ++
            piperResolveModel ⟨"default.onnx", "piper", [("hi", "hi.onnx")]⟩
              "hi-IN" ++ "'."))) :=
  piper_model_resolution ⟨"default.onnx", "piper", [("hi", "hi.onnx")]⟩
    ⟨false, fun _ => false, Except.ok []⟩ "Hello" "hi-IN" (by decide)
    (by decide) (by decide)

end Cerevak
